import Mathlib

/-!
Verification of the build script setup.py of the modified-Levenshtein
repository. The script is embedded as a small Python-statement AST and
an interpreter parameterised by an environment: the set of importable
modules, whether the file runs as the main script, and an oracle for the
external toolchain (distutils setup together with Cython cythonize).
-/

/-- A Python expression, as they occur in setup.py: a string literal or a
single-argument function call such as cythonize("cLev.pyx"). -/
inductive PyExpr where
  | strLit (s : String)
  | call1 (fn : String) (arg : PyExpr)
deriving DecidableEq, Repr

/-- A top-level Python statement of setup.py: a from-import, a comment,
a blank line, or an expression-statement call with keyword arguments. -/
inductive PyStmt where
  | importFrom (module : String) (names : List String)
  | comment (text : String)
  | blank
  | exprCall (fn : String) (kwargs : List (String × PyExpr))
deriving DecidableEq, Repr

/-- A top-level entry of the file: a statement together with the flag
recording whether it sits under an if-name-equals-main guard. -/
structure PyTop where
  underMainGuard : Bool
  stmt : PyStmt
deriving DecidableEq, Repr

/-- The keyword arguments of the single setup call in setup.py. -/
def setupKwargs : List (String × PyExpr) :=
  [("ext_modules", .call1 "cythonize" (.strLit "cLev.pyx"))]

/-- The file src/setup.py, statement by statement. Lines 1 and 2 are the
two imports, line 3 is the commented-out numpy import, line 4 is blank,
lines 5 through 8 are the setup call with the commented-out include_dirs
line inside its parentheses. No statement is under a main guard. -/
def setupPy : List PyTop :=
  [ ⟨false, .importFrom "distutils.core" ["setup"]⟩,
    ⟨false, .importFrom "Cython.Build" ["cythonize"]⟩,
    ⟨false, .comment " import numpy"⟩,
    ⟨false, .blank⟩,
    ⟨false, .exprCall "setup" setupKwargs⟩,
    ⟨false, .comment " include_dirs=[numpy.get_include()] needed for np support"⟩ ]

/-- The modules named by the import statements of a file, in order. -/
def importsOf (file : List PyTop) : List String :=
  file.filterMap (fun t =>
    match t.stmt with
    | .importFrom m _ => some m
    | _ => none)

/-- All call targets occurring in an expression. -/
def exprCallTargets : PyExpr → List String
  | .strLit _ => []
  | .call1 f a => f :: exprCallTargets a

/-- All call targets occurring in a statement. -/
def stmtCallTargets : PyStmt → List String
  | .exprCall fn kwargs => fn :: (kwargs.map (fun kv => exprCallTargets kv.2)).flatten
  | _ => []

/-- All call targets occurring in a file, in order. -/
def callTargetsOf (file : List PyTop) : List String :=
  (file.map (fun t => stmtCallTargets t.stmt)).flatten

/-- Whether any top-level entry of the file sits under a main guard. -/
def hasMainGuard (file : List PyTop) : Bool :=
  file.any (fun t => t.underMainGuard)

/-- The keyword names of a keyword-argument list. -/
def kwargKeys (kwargs : List (String × PyExpr)) : List String :=
  kwargs.map (fun kv => kv.1)

/-- The string literals appearing directly under calls to cythonize in an
expression: the source files handed to the Cython compiler. -/
def cythonSourcesExpr : PyExpr → List String
  | .strLit _ => []
  | .call1 f a =>
      if f = "cythonize" then
        (match a with
         | .strLit s => [s]
         | _ => []) ++ cythonSourcesExpr a
      else cythonSourcesExpr a

/-- The cythonize source files named in a keyword-argument list. -/
def cythonSources (kwargs : List (String × PyExpr)) : List String :=
  (kwargs.map (fun kv => cythonSourcesExpr kv.2)).flatten

/-- The environment a run of the script sees: which modules the Python
installation can import, whether the file runs as the main script, and the
behaviour of the external toolchain when a top-level call is executed. The
oracle returns either an error of type E or the list of artifacts built. -/
structure PyEnv (E : Type) where
  availableModules : List String
  runAsMain : Bool
  extCall : String → List (String × PyExpr) → Except E (List String)

/-- How a run of the script can fail: the import machinery raises an
ImportError for a missing module, or the external toolchain raises its own
error, which the script passes through unmodified. -/
inductive ScriptError (E : Type) where
  | importError (module : String)
  | external (e : E)
deriving DecidableEq, Repr

/-- The observable result of a run: the external calls made in order, the
artifacts produced, and the outcome. -/
structure ExecResult (E : Type) where
  calls : List (String × List (String × PyExpr))
  artifacts : List String
  outcome : Except (ScriptError E) Unit
deriving Repr

/-- Sequential execution of the statements of a file. An import of an
unavailable module stops the run with an ImportError; comments and blank
lines do nothing; a top-level call invokes the external toolchain and, on
error, stops the run with that error unmodified. Statements under a main
guard run only when the file runs as the main script. -/
def execFrom {E : Type} (env : PyEnv E) : List PyTop → ExecResult E
  | [] => ⟨[], [], .ok ()⟩
  | t :: rest =>
      if t.underMainGuard && !env.runAsMain then execFrom env rest
      else
        match t.stmt with
        | .importFrom m _ =>
            if m ∈ env.availableModules then execFrom env rest
            else ⟨[], [], .error (.importError m)⟩
        | .comment _ => execFrom env rest
        | .blank => execFrom env rest
        | .exprCall fn kwargs =>
            match env.extCall fn kwargs with
            | .ok arts =>
                let r := execFrom env rest
                ⟨(fn, kwargs) :: r.calls, arts ++ r.artifacts, r.outcome⟩
            | .error e => ⟨[(fn, kwargs)], [], .error (.external e)⟩

/-- Running src/setup.py in a given environment. -/
def execSetupPy {E : Type} (env : PyEnv E) : ExecResult E :=
  execFrom env setupPy

/-- How the toolchain can fail in the spec-modelled toolchain. -/
inductive ToolchainError where
  | missingSource (name : String)
deriving DecidableEq, Repr

/-- Modelled from the spec: the external toolchain (the distutils setup
helper together with Cython cythonize), whose code is not part of this
repository. Per the spec, invoking the build step with the named source
file present produces a compiled artifact, and invoking it with the source
file absent fails; artifact names are chosen by the toolchain. -/
def specToolchain (sourceExists : String → Bool) (fn : String)
    (kwargs : List (String × PyExpr)) : Except ToolchainError (List String) :=
  let srcs := if fn = "setup" then cythonSources kwargs else []
  match srcs.find? (fun s => !sourceExists s) with
  | some s => .error (.missingSource s)
  | none => .ok (srcs.map (fun s => s ++ ".so"))

/-- An environment whose toolchain is the spec-modelled one, with the
given on-disk source files. -/
def specEnv (sourceExists : String → Bool) : PyEnv ToolchainError :=
  ⟨["distutils.core", "Cython.Build"], true, specToolchain sourceExists⟩

/-- A concrete demonstration environment: both imported modules available,
run as the main script, toolchain always succeeding with one artifact. -/
def demoEnv : PyEnv Unit :=
  ⟨["distutils.core", "Cython.Build"], true, fun _ _ => .ok ["cLev.so"]⟩

/-- A concrete environment whose toolchain always fails. -/
def demoFailEnv : PyEnv Nat :=
  ⟨["distutils.core", "Cython.Build"], true, fun _ _ => .error 7⟩

/-- A concrete environment with Cython missing. -/
def noCythonEnv : PyEnv Unit :=
  ⟨["distutils.core"], true, fun _ _ => .ok []⟩

/-- A concrete environment with both modules available but the file merely
imported as a module, not run as the main script. -/
def importOnlyEnv : PyEnv Unit :=
  ⟨["distutils.core", "Cython.Build"], false, fun _ _ => .ok ["cLev.so"]⟩

/-- A concrete environment like demoEnv with numpy additionally available
and the file merely imported. -/
def demoEnvNumpy : PyEnv Unit :=
  ⟨["distutils.core", "Cython.Build", "numpy"], false, fun _ _ => .ok ["cLev.so"]⟩

/-- Helper: with both imported modules available and the toolchain call
succeeding, the run makes exactly the one setup call, keeps the artifacts
the toolchain returned, and succeeds. -/
theorem execSetupPy_ok {E : Type} (env : PyEnv E) (arts : List String)
    (h1 : "distutils.core" ∈ env.availableModules)
    (h2 : "Cython.Build" ∈ env.availableModules)
    (h3 : env.extCall "setup" setupKwargs = Except.ok arts) :
    execSetupPy env = ⟨[("setup", setupKwargs)], arts, Except.ok ()⟩ := by
  simp [execSetupPy, setupPy, execFrom, h1, h2, h3]

/-- Helper: with both imported modules available and the toolchain call
failing with e, the run makes exactly the one setup call and stops with
exactly that error. -/
theorem execSetupPy_err {E : Type} (env : PyEnv E) (e : E)
    (h1 : "distutils.core" ∈ env.availableModules)
    (h2 : "Cython.Build" ∈ env.availableModules)
    (h3 : env.extCall "setup" setupKwargs = Except.error e) :
    execSetupPy env = ⟨[("setup", setupKwargs)], [], Except.error (.external e)⟩ := by
  simp [execSetupPy, setupPy, execFrom, h1, h2, h3]

/-- Helper: with Cython missing (distutils present), the run stops at line
two with an ImportError before any external call. -/
theorem execSetupPy_noCython {E : Type} (env : PyEnv E)
    (h1 : "distutils.core" ∈ env.availableModules)
    (h2 : "Cython.Build" ∉ env.availableModules) :
    execSetupPy env = ⟨[], [], Except.error (.importError "Cython.Build")⟩ := by
  simp [execSetupPy, setupPy, execFrom, h1, h2]

/-- Helper: with distutils missing, the run stops at line one with an
ImportError before any external call. -/
theorem execSetupPy_noDistutils {E : Type} (env : PyEnv E)
    (h1 : "distutils.core" ∉ env.availableModules) :
    execSetupPy env = ⟨[], [], Except.error (.importError "distutils.core")⟩ := by
  simp [execSetupPy, setupPy, execFrom, h1]

/-- C1: in every run of setup.py that gets past its imports, the sole
action is the single invocation of the external setup helper, whose
extension-module list is built by cythonize from exactly the one named
source file cLev.pyx; the only calls appearing anywhere in the file are
that setup call and the cythonize call inside it. -/
theorem c1_sole_action_single_setup_call {E : Type} (env : PyEnv E)
    (h1 : "distutils.core" ∈ env.availableModules)
    (h2 : "Cython.Build" ∈ env.availableModules) :
    (execSetupPy env).calls = [("setup", setupKwargs)] ∧
    cythonSources setupKwargs = ["cLev.pyx"] ∧
    callTargetsOf setupPy = ["setup", "cythonize"] := by
  refine ⟨?_, by decide, by decide⟩
  cases h3 : env.extCall "setup" setupKwargs with
  | ok arts => rw [execSetupPy_ok env arts h1 h2 h3]
  | error e => rw [execSetupPy_err env e h1 h2 h3]

/-- Witness for C1 at the concrete environment demoEnv. -/
theorem c1_witness :
    (execSetupPy demoEnv).calls = [("setup", setupKwargs)] ∧
    cythonSources setupKwargs = ["cLev.pyx"] ∧
    callTargetsOf setupPy = ["setup", "cythonize"] :=
  c1_sole_action_single_setup_call demoEnv (by decide) (by decide)

/-- C2: the include-directory option is inactive: the setup call passes
only the ext_modules keyword and no include_dirs keyword, numpy is never
imported by the file, and the result of a run is unaffected by anything in
the module environment beyond the availability of the two modules the file
does import - in particular by whether numpy is installed. -/
theorem c2_include_dirs_inactive {E : Type} (env env' : PyEnv E)
    (hc : env.extCall = env'.extCall)
    (h1 : ("distutils.core" ∈ env.availableModules) ↔
          ("distutils.core" ∈ env'.availableModules))
    (h2 : ("Cython.Build" ∈ env.availableModules) ↔
          ("Cython.Build" ∈ env'.availableModules)) :
    kwargKeys setupKwargs = ["ext_modules"] ∧
    "include_dirs" ∉ kwargKeys setupKwargs ∧
    "numpy" ∉ importsOf setupPy ∧
    execSetupPy env = execSetupPy env' := by
  refine ⟨by decide, by decide, by decide, ?_⟩
  by_cases hd : "distutils.core" ∈ env.availableModules
  · by_cases hcy : "Cython.Build" ∈ env.availableModules
    · cases h3 : env.extCall "setup" setupKwargs with
      | ok arts =>
          rw [execSetupPy_ok env arts hd hcy h3,
            execSetupPy_ok env' arts (h1.mp hd) (h2.mp hcy) (hc ▸ h3)]
      | error e =>
          rw [execSetupPy_err env e hd hcy h3,
            execSetupPy_err env' e (h1.mp hd) (h2.mp hcy) (hc ▸ h3)]
    · rw [execSetupPy_noCython env hd hcy,
        execSetupPy_noCython env' (h1.mp hd) (fun h => hcy (h2.mpr h))]
  · rw [execSetupPy_noDistutils env hd,
      execSetupPy_noDistutils env' (fun h => hd (h1.mpr h))]

/-- Witness for C2: demoEnv against the same environment with numpy
additionally installed and the file merely imported. -/
theorem c2_witness :
    kwargKeys setupKwargs = ["ext_modules"] ∧
    "include_dirs" ∉ kwargKeys setupKwargs ∧
    "numpy" ∉ importsOf setupPy ∧
    execSetupPy demoEnv = execSetupPy demoEnvNumpy :=
  c2_include_dirs_inactive demoEnv demoEnvNumpy rfl (by decide) (by decide)

/-- C3: when the external toolchain fails with error e, the script has
still issued exactly the one unvalidated setup call and its outcome is
that very error, unmodified: no recovery, no translation, no error text of
the script itself. -/
theorem c3_failure_propagates_unmodified {E : Type} (env : PyEnv E) (e : E)
    (h1 : "distutils.core" ∈ env.availableModules)
    (h2 : "Cython.Build" ∈ env.availableModules)
    (h3 : env.extCall "setup" setupKwargs = Except.error e) :
    (execSetupPy env).calls = [("setup", setupKwargs)] ∧
    (execSetupPy env).artifacts = [] ∧
    (execSetupPy env).outcome = Except.error (.external e) := by
  rw [execSetupPy_err env e h1 h2 h3]
  exact ⟨rfl, rfl, rfl⟩

/-- Witness for C3 at the concrete always-failing environment. -/
theorem c3_witness :
    (execSetupPy demoFailEnv).calls = [("setup", setupKwargs)] ∧
    (execSetupPy demoFailEnv).artifacts = [] ∧
    (execSetupPy demoFailEnv).outcome = Except.error (.external 7) :=
  c3_failure_propagates_unmodified demoFailEnv 7 (by decide) (by decide) rfl

/-- Helper: what the spec-modelled toolchain does on the setup call of
this file: one artifact from cLev.pyx when that source exists, a
missing-source failure otherwise. -/
theorem specToolchain_setup (sourceExists : String → Bool) :
    (specEnv sourceExists).extCall "setup" setupKwargs =
      if sourceExists "cLev.pyx" then Except.ok ["cLev.pyx.so"]
      else Except.error (.missingSource "cLev.pyx") := by
  cases h : sourceExists "cLev.pyx" <;>
    simp [specEnv, specToolchain, cythonSources, cythonSourcesExpr, setupKwargs, h]

/-- C4: against the spec-modelled external toolchain, running the build
step with cLev.pyx present on disk succeeds and produces a compiled
artifact, and running it with cLev.pyx absent fails. -/
theorem c4_artifact_iff_source_present (sourceExists : String → Bool) :
    execSetupPy (specEnv sourceExists) =
      if sourceExists "cLev.pyx" then
        ⟨[("setup", setupKwargs)], ["cLev.pyx.so"], Except.ok ()⟩
      else
        ⟨[("setup", setupKwargs)], [],
          Except.error (.external (.missingSource "cLev.pyx"))⟩ := by
  have hx := specToolchain_setup sourceExists
  have hd : "distutils.core" ∈ (specEnv sourceExists).availableModules := by
    simp [specEnv]
  have hcy : "Cython.Build" ∈ (specEnv sourceExists).availableModules := by
    simp [specEnv]
  cases h : sourceExists "cLev.pyx" with
  | false =>
      rw [h] at hx
      simp only [Bool.false_eq_true, if_false] at hx
      rw [execSetupPy_err (specEnv sourceExists) _ hd hcy hx]
      simp [h]
  | true =>
      rw [h, if_pos rfl] at hx
      rw [execSetupPy_ok (specEnv sourceExists) _ hd hcy hx]
      simp [h]

/-- C5: the script is deterministic straight-line code: any external call
any run ever makes is the single setup call with the constant argument
list naming cLev.pyx, and in such a run that call is the whole call
trace. -/
theorem c5_constant_single_call {E : Type} (env : PyEnv E)
    (c : String × List (String × PyExpr))
    (hc : c ∈ (execSetupPy env).calls) :
    c = ("setup", setupKwargs) ∧
    (execSetupPy env).calls = [("setup", setupKwargs)] ∧
    cythonSources c.2 = ["cLev.pyx"] := by
  by_cases hd : "distutils.core" ∈ env.availableModules
  · by_cases hcy : "Cython.Build" ∈ env.availableModules
    · have hcalls : (execSetupPy env).calls = [("setup", setupKwargs)] := by
        cases h3 : env.extCall "setup" setupKwargs with
        | ok arts => rw [execSetupPy_ok env arts hd hcy h3]
        | error e => rw [execSetupPy_err env e hd hcy h3]
      rw [hcalls] at hc
      simp only [List.mem_singleton] at hc
      subst hc
      exact ⟨rfl, hcalls, by decide⟩
    · rw [execSetupPy_noCython env hd hcy] at hc
      simp at hc
  · rw [execSetupPy_noDistutils env hd] at hc
    simp at hc

/-- Witness for C5 at demoEnv with the setup call itself. -/
theorem c5_witness :
    ("setup", setupKwargs) = ("setup", setupKwargs) ∧
    (execSetupPy demoEnv).calls = [("setup", setupKwargs)] ∧
    cythonSources ("setup", setupKwargs).2 = ["cLev.pyx"] :=
  c5_constant_single_call demoEnv ("setup", setupKwargs) (by decide)

/-- C6: the file defines no command-line surface of its own: it imports
only distutils.core and Cython.Build - no argparse, optparse, sys or
click - and the only calls in it are the setup and cythonize calls, so no
flag definition or subcommand dispatch appears anywhere in it. -/
theorem c6_no_cli_surface :
    importsOf setupPy = ["distutils.core", "Cython.Build"] ∧
    callTargetsOf setupPy = ["setup", "cythonize"] ∧
    "argparse" ∉ importsOf setupPy ∧
    "optparse" ∉ importsOf setupPy ∧
    "sys" ∉ importsOf setupPy ∧
    "argparse" ∉ callTargetsOf setupPy := by
  decide

/-- C7: every run that gets past the imports performs exactly one external
invocation, and the whole run is the synchronous completion of that call:
the result of the script is a function of that single call's result, with
nothing left to order. -/
theorem c7_single_synchronous_invocation {E : Type} (env : PyEnv E)
    (h1 : "distutils.core" ∈ env.availableModules)
    (h2 : "Cython.Build" ∈ env.availableModules) :
    (execSetupPy env).calls.length = 1 ∧
    execSetupPy env =
      (match env.extCall "setup" setupKwargs with
       | Except.ok arts => ⟨[("setup", setupKwargs)], arts, Except.ok ()⟩
       | Except.error e =>
          ⟨[("setup", setupKwargs)], [], Except.error (.external e)⟩) := by
  cases h3 : env.extCall "setup" setupKwargs with
  | ok arts => rw [execSetupPy_ok env arts h1 h2 h3]; exact ⟨rfl, rfl⟩
  | error e => rw [execSetupPy_err env e h1 h2 h3]; exact ⟨rfl, rfl⟩

/-- Witness for C7 at the concrete environment demoFailEnv. -/
theorem c7_witness :
    (execSetupPy demoFailEnv).calls.length = 1 ∧
    execSetupPy demoFailEnv =
      (match demoFailEnv.extCall "setup" setupKwargs with
       | Except.ok arts => ⟨[("setup", setupKwargs)], arts, Except.ok ()⟩
       | Except.error e =>
          ⟨[("setup", setupKwargs)], [], Except.error (.external e)⟩) :=
  c7_single_synchronous_invocation demoFailEnv (by decide) (by decide)

/-- C8: no statement of the file sits under a main guard, so merely
importing the module - a run with runAsMain false - still triggers the one
setup invocation whenever the imports resolve. -/
theorem c8_no_main_guard_import_triggers_build {E : Type} (env : PyEnv E)
    (h1 : "distutils.core" ∈ env.availableModules)
    (h2 : "Cython.Build" ∈ env.availableModules)
    (_h3 : env.runAsMain = false) :
    hasMainGuard setupPy = false ∧
    (execSetupPy env).calls = [("setup", setupKwargs)] := by
  refine ⟨by decide, ?_⟩
  cases h4 : env.extCall "setup" setupKwargs with
  | ok arts => rw [execSetupPy_ok env arts h1 h2 h4]
  | error e => rw [execSetupPy_err env e h1 h2 h4]

/-- Witness for C8 at the concrete import-only environment. -/
theorem c8_witness :
    hasMainGuard setupPy = false ∧
    (execSetupPy importOnlyEnv).calls = [("setup", setupKwargs)] :=
  c8_no_main_guard_import_triggers_build importOnlyEnv (by decide) (by decide) rfl

/-- C9: Cython is a hard import-time dependency and numpy is none at all:
with Cython.Build missing the run stops at the import with an ImportError
and an empty call trace, so setup is never invoked; the file imports
exactly distutils.core and Cython.Build and never numpy. -/
theorem c9_cython_hard_import_dependency {E : Type} (env : PyEnv E)
    (h1 : "distutils.core" ∈ env.availableModules)
    (h2 : "Cython.Build" ∉ env.availableModules) :
    execSetupPy env = ⟨[], [], Except.error (.importError "Cython.Build")⟩ ∧
    "numpy" ∉ importsOf setupPy ∧
    importsOf setupPy = ["distutils.core", "Cython.Build"] := by
  exact ⟨execSetupPy_noCython env h1 h2, by decide, by decide⟩

/-- Witness for C9 at the concrete Cython-less environment. -/
theorem c9_witness :
    execSetupPy noCythonEnv = ⟨[], [], Except.error (.importError "Cython.Build")⟩ ∧
    "numpy" ∉ importsOf setupPy ∧
    importsOf setupPy = ["distutils.core", "Cython.Build"] :=
  c9_cython_hard_import_dependency noCythonEnv (by decide) (by decide)
